import Mathlib

/-!
Verification of the statistical aggregation layer of an EPH household-survey
analytics pipeline (cleaning, price deflation, weighted aggregation,
labor-force rates, branch participation).

Shallow embedding conventions:
* a DataFrame is a `List` of row structures; a pair of columns is a list of
  pairs;
* a float cell that may be NaN is an `Option ℚ` (`none` = NaN/missing);
  finite float values are modelled as rationals;
* pandas comparisons against NaN are `false`, pandas sums skip NaN
  (`Option.getD 0`), and a float division whose result is not finite
  (denominator zero) is modelled as a missing value;
* `groupby` followed by a per-group reduction is modelled by filtering the
  row list on the group key and applying the reduction to the filtered list.
-/

namespace EPH

/-- One cleaned survey row (EPH microdata record).  `none` models NaN. -/
structure Registro where
  ano4 : Int
  trimestre : Int
  aglomerado : Int
  estado : Option Int
  ch06 : Option Int
  pondera : Option ℚ
  p47t : Option ℚ
  ingresoReal : Option ℚ
  pp04bCod : Option Int
deriving DecidableEq

/-! ### Weighted mean (`wmean` in `ingresos.py` / `graficos_ingresos.py`)

`wmean(x, w)` receives two parallel columns; we model them as one list of
pairs `(x_i, w_i)`.  The numpy mask is `~isnan(x) & (w > 0)` (a NaN weight
compares as not `> 0`). -/

/-- The numpy eligibility mask of `wmean`: income present and weight `> 0`. -/
def elegible (p : Option ℚ × Option ℚ) : Bool :=
  match p with
  | (some _, some w) => decide (0 < w)
  | _ => false

/-- `wmean` from `ingresos.py` (also inlined in `calcular_univariado`):
`sum(x[m]*w[m]) / sum(w[m])` if the mask has any row, else NaN. -/
def wmean (rows : List (Option ℚ × Option ℚ)) : Option ℚ :=
  let el := rows.filter elegible
  if el = [] then none
  else some (((el.map fun p => p.1.getD 0 * p.2.getD 0).sum) /
             ((el.map fun p => p.2.getD 0).sum))

/-- Spec-side numerator: `Σ x_i·w_i` over rows with income present and `w > 0`,
extracted by `filterMap` directly from the claim's wording. -/
def sumaNumerador (rows : List (Option ℚ × Option ℚ)) : ℚ :=
  (rows.filterMap fun p =>
    match p with
    | (some x, some w) => if 0 < w then some (x * w) else none
    | _ => none).sum

/-- Spec-side denominator: `Σ w_i` over rows with income present and `w > 0`. -/
def sumaDenominador (rows : List (Option ℚ × Option ℚ)) : ℚ :=
  (rows.filterMap fun p =>
    match p with
    | (some _, some w) => if 0 < w then some w else none
    | _ => none).sum

/-! ### Branch classification (`_clasificar_rama` in `te_ramas_participacion.py`) -/

/-- The two classified economic branches. -/
inductive Rama where
  | industria
  | turismo
deriving DecidableEq

/-- `_clasificar_rama`: half-open CAES code ranges; a missing code (NaN, or a
value `int()` cannot parse) is unclassified (`none`). -/
def clasificar_rama (cod : Option Int) : Option Rama :=
  match cod with
  | none => none
  | some c =>
    if 1500 ≤ c ∧ c < 4000 then some .industria
    else if 5000 ≤ c ∧ c < 6000 then some .turismo
    else if 9100 ≤ c ∧ c < 9500 then some .turismo
    else none

/-! ### Record normalizer (`cleaning.py`) -/

/-- The columns the cleaning step knows about (column names as a closed type). -/
inductive Columna where
  | CH04 | CH05 | CH06 | CH07 | CH08
  | CAT_OCUP | CAT_INAC
  | PP04A | PP04B_COD | P47T
  | ANO4 | TRIMESTRE | AGLOMERADO | PONDERA | ESTADO
deriving DecidableEq

/-- `NO_RESPUESTA = {9, 99, -1}`. -/
def NO_RESPUESTA : List ℚ := [9, 99, -1]

/-- `COLS_CON_NA`: the columns where the no-response sentinels become NaN. -/
def COLS_CON_NA : List Columna :=
  [.CH04, .CH05, .CH06, .CH07, .CH08, .CAT_OCUP, .CAT_INAC,
   .PP04A, .PP04B_COD, .P47T]

/-- `_replace_no_respuesta` on one cell of one column: the sentinel values
9 / 99 / -1 become NaN, but only in the columns listed in `COLS_CON_NA`. -/
def replaceNoRespuesta (col : Columna) (v : Option ℚ) : Option ℚ :=
  if col ∈ COLS_CON_NA then
    match v with
    | some x => if x ∈ NO_RESPUESTA then none else some x
    | none => none
  else v

/-- The negative-income fix of `_convert_numeric` on one `P47T` cell:
`df.loc[df["P47T"] < 0] = NaN` (NaN compares as not `< 0`). -/
def corregirNegativos (v : Option ℚ) : Option ℚ :=
  match v with
  | some x => if x < 0 then none else some x
  | none => none

/-- The cleaning pipeline on one raw `P47T` cell, in source order:
`_replace_no_respuesta` first, then `_convert_numeric`. -/
def limpiarP47T (v : Option ℚ) : Option ℚ :=
  corregirNegativos (replaceNoRespuesta .P47T v)

/-! ### Labor-force rates (`tasas.py`) -/

/-- The adult filter `df[df["CH06"] >= 18]` (a NaN age compares as `false`). -/
def esAdulto (r : Registro) : Bool :=
  match r.ch06 with
  | some a => decide (18 ≤ a)
  | none => false

/-- `poblacion = len(df)` after the adult filter. -/
def poblacion (rows : List Registro) : ℚ :=
  ((rows.filter esAdulto).length : ℚ)

/-- `ocupados = (df["ESTADO"] == 1).sum()` (NaN status compares as `false`). -/
def ocupados (rows : List Registro) : ℚ :=
  (((rows.filter esAdulto).filter fun r => r.estado = some 1).length : ℚ)

/-- `desocupados = (df["ESTADO"] == 2).sum()`. -/
def desocupados (rows : List Registro) : ℚ :=
  (((rows.filter esAdulto).filter fun r => r.estado = some 2).length : ℚ)

/-- `calcular_tasas` from `tasas.py`: the triple `(TA, TE, TD)` with each
rate guarded by its `if denominator > 0 else 0`. -/
def calcular_tasas (rows : List Registro) : ℚ × ℚ × ℚ :=
  let pob := poblacion rows
  let ocu := ocupados rows
  let des := desocupados rows
  let pea := ocu + des
  (if 0 < pob then pea / pob else 0,
   if 0 < pob then ocu / pob else 0,
   if 0 < pea then des / pea else 0)

/-- The `(AGLOMERADO, ANO4, TRIMESTRE)` group of a row list (the rows a
pandas `groupby` hands to `calcular_tasas` for that key). -/
def grupoTrimestral (rows : List Registro) (aglo ano trim : Int) : List Registro :=
  (rows.filter esAdulto).filter fun r =>
    r.aglomerado = aglo && r.ano4 = ano && r.trimestre = trim

/-- `tasas_trimestrales` evaluated at one group key. -/
def tasasTrimestralesEn (rows : List Registro) (aglo ano trim : Int) : ℚ × ℚ × ℚ :=
  calcular_tasas (grupoTrimestral rows aglo ano trim)

/-! ### Price deflation (`deflactar_ingreso` in `ingresos.py`) -/

/-- One row of the IPC price-index table (`load_ipc` output); the index value
may be NaN after `to_numeric`. -/
structure FilaIPC where
  ano4 : Int
  trimestre : Int
  ipc : Option ℚ
deriving DecidableEq

/-- `ipc_df[(ipc_df["ANO4"] == a) & (ipc_df["TRIMESTRE"] == t)]["IPC"].iloc[0]`:
the first row matching the period, or `none` when the selection is empty (in
which case `.iloc[0]` raises `IndexError`).  Under the data-model invariant of
one entry per period this is the unique matching entry. -/
def buscarIPC (ipc : List FilaIPC) (a t : Int) : Option FilaIPC :=
  (ipc.filter fun row => row.ano4 = a && row.trimestre = t).head?

/-- The rebasing multiplier `ipc_base / ipc_periodo` of one record: missing
when either index value is NaN, and a non-finite float result (division by a
zero index) is modelled as missing. -/
def razonIPC (ipcBase ipcPeriodo : Option ℚ) : Option ℚ :=
  match ipcBase, ipcPeriodo with
  | some b, some v => if v = 0 then none else some (b / v)
  | _, _ => none

/-- The per-record body of `deflactar_ingreso`: left-join the IPC row of the
record's period and set `INGRESO_REAL = P47T * (ipc_base / IPC)` (missing if
any operand is missing). -/
def deflactarRegistro (ipc : List FilaIPC) (base : FilaIPC) (r : Registro) : Registro :=
  let fila := buscarIPC ipc r.ano4 r.trimestre
  let razon := razonIPC base.ipc (fila.bind FilaIPC.ipc)
  { r with ingresoReal :=
      match r.p47t, razon with
      | some ing, some q => some (ing * q)
      | _, _ => none }

/-- `deflactar_ingreso`: `none` models the `IndexError` raised by `.iloc[0]`
when the base period has no IPC row; otherwise every record gets its
`INGRESO_REAL`. -/
def deflactar_ingreso (df : List Registro) (ipc : List FilaIPC)
    (anoBase trimestreBase : Int) : Option (List Registro) :=
  match buscarIPC ipc anoBase trimestreBase with
  | none => none
  | some base => some (df.map (deflactarRegistro ipc base))

/-! ### Linear-interpolation quantile (pandas `quantile` / `median` default) -/

/-- Value of the sorted list `v` at fractional position `h`:
`v[⌊h⌋] + (h - ⌊h⌋) · (v[⌊h⌋+1] - v[⌊h⌋])`, the pandas linear interpolation;
when `⌊h⌋ + 1` falls past the end the upper neighbour defaults to `v[⌊h⌋]`
(the fractional part is `0` there, so the term vanishes). -/
def interpola (v : List ℚ) (h : ℚ) : ℚ :=
  let i := (⌊h⌋).toNat
  let a := v.getD i 0
  let b := v.getD (i + 1) a
  a + (h - (⌊h⌋ : ℚ)) * (b - a)

/-- pandas `Series.quantile(p)` over a column of present values: sort and
interpolate at position `p · (n - 1)`; NaN on an empty series
(`Series.median()` is `quantile(0.5)`). -/
def cuantil (v : List ℚ) (p : ℚ) : Option ℚ :=
  if v = [] then none
  else some (interpola (List.insertionSort (· ≤ ·) v) (p * ((v.length : ℚ) - 1)))

/-! ### Univariate income summary (`calcular_univariado` in `graficos_ingresos.py`)

One group is the pair of columns `(INGRESO_REAL, PONDERA)`, a list of pairs. -/

/-- `pd.DataFrame({"x": x, "w": w}).dropna()` then `dfp["w"] > 0`:
the group's eligible `(x, w)` pairs. -/
def filasValidas (rows : List (Option ℚ × Option ℚ)) : List (ℚ × ℚ) :=
  rows.filterMap fun p =>
    match p with
    | (some x, some w) => if 0 < w then some (x, w) else none
    | _ => none

/-- `dfp.loc[dfp.index.repeat(dfp["w"].astype(int))]["x"]`: each eligible
value repeated `int(w)` times (numpy truncation toward zero; `⌊w⌋` since the
weights are already `> 0`). -/
def expandir (rows : List (Option ℚ × Option ℚ)) : List ℚ :=
  (filasValidas rows).flatMap fun p => List.replicate (⌊p.2⌋).toNat p.1

/-- Claim-side expansion, written from the spec's words: each eligible record
duplicated `round(w_i)` times. -/
def expandirRound (rows : List (Option ℚ × Option ℚ)) : List ℚ :=
  (filasValidas rows).flatMap fun p => List.replicate (round p.2).toNat p.1

/-- `MEDIANA` of one group of `calcular_univariado`. -/
def medianaGrupo (rows : List (Option ℚ × Option ℚ)) : Option ℚ :=
  cuantil (expandir rows) (1 / 2)

/-- `Q25` of one group of `calcular_univariado`. -/
def q25Grupo (rows : List (Option ℚ × Option ℚ)) : Option ℚ :=
  cuantil (expandir rows) (1 / 4)

/-- `Q75` of one group of `calcular_univariado`. -/
def q75Grupo (rows : List (Option ℚ × Option ℚ)) : Option ℚ :=
  cuantil (expandir rows) (3 / 4)

/-- The multiset in which each eligible record of the group appears `⌊w⌋`
times (spec-side view of the truncated expansion). -/
def multisetTrunc (rows : List (Option ℚ × Option ℚ)) : Multiset ℚ :=
  ((filasValidas rows).map fun p => Multiset.replicate (⌊p.2⌋).toNat p.1).sum

/-- Exact order-statistic quantile of a multiset, via its sorted enumeration. -/
def cuantilMultiset (m : Multiset ℚ) (p : ℚ) : Option ℚ :=
  if m = 0 then none
  else some (interpola (Multiset.sort (· ≤ ·) m) (p * ((Multiset.card m : ℚ) - 1)))

/-! ### Boxplot cleanup (`limpiar_boxplot` in `boxplots.py`) -/

/-- `df["INGRESO_REAL"] > 0` (NaN fails). -/
def ingresoPositivo (r : Registro) : Bool :=
  match r.ingresoReal with
  | some x => decide (0 < x)
  | none => false

/-- `df["PONDERA"] > 0` (NaN fails). -/
def ponderaPositiva (r : Registro) : Bool :=
  match r.pondera with
  | some w => decide (0 < w)
  | none => false

/-- The outlier-trim predicate against an optional threshold (an empty table
gives a NaN threshold and `x <= NaN` keeps nothing). -/
def bajoUmbral (q : Option ℚ) (r : Registro) : Bool :=
  match q with
  | some t => decide (r.ingresoReal.getD 0 ≤ t)
  | none => false

/-- `limpiar_boxplot`, filters in source order: income `> 0`, weight `> 0`,
outlier trim at `quantile(0.995)` of the table at that point, and only then
age `≥ 18`. -/
def limpiar_boxplot (df : List Registro) : List Registro :=
  let d2 := (df.filter ingresoPositivo).filter ponderaPositiva
  let q := cuantil (d2.map fun r => r.ingresoReal.getD 0) (995 / 1000)
  (d2.filter (bajoUmbral q)).filter esAdulto

/-- Claim-side cleanup order: all validity filters (income, weight, age)
first, then the trim, with the threshold over the already-valid population. -/
def limpiarOrdenSpec (df : List Registro) : List Registro :=
  let d2 := ((df.filter ingresoPositivo).filter ponderaPositiva).filter esAdulto
  let q := cuantil (d2.map fun r => r.ingresoReal.getD 0) (995 / 1000)
  d2.filter (bajoUmbral q)

/-- Amended description of `limpiar_boxplot` in one pass: keep the rows with
positive income, positive weight, income below the 99.5th percentile of the
income-and-weight-valid population **of all ages**, and age `≥ 18`; the
threshold never sees the age filter. -/
def limpiarDescripcion (df : List Registro) : List Registro :=
  let base := df.filter fun r => ingresoPositivo r && ponderaPositiva r
  let q := cuantil (base.map fun r => r.ingresoReal.getD 0) (995 / 1000)
  df.filter fun r =>
    ingresoPositivo r && ponderaPositiva r && bajoUmbral q r && esAdulto r

/-! ### Branch participation (`participacion_empleo_por_rama`) -/

/-- `df["ESTADO"] == 1` (employed). -/
def esOcupado (r : Registro) : Bool :=
  r.estado = some 1

/-- The `(AGLOMERADO, ANO4)` group of employed adults: the source filters
`CH06 >= edad_min`, then `ESTADO == 1`, then groups by aglomerado and year. -/
def ocupadosGrupo (df : List Registro) (aglo ano : Int) : List Registro :=
  ((df.filter esAdulto).filter esOcupado).filter fun r =>
    r.aglomerado = aglo && r.ano4 = ano

/-- `OCUPADOS_TOTALES`: weight summed over **all** employed adults of the
group, whatever their branch (pandas sum skips NaN weights). -/
def ocupadosTotales (df : List Registro) (aglo ano : Int) : ℚ :=
  ((ocupadosGrupo df aglo ano).map fun r => r.pondera.getD 0).sum

/-- `OCUPADOS_RAMA`: weight summed over the group's rows classified in `rm`. -/
def ocupadosRama (df : List Registro) (aglo ano : Int) (rm : Rama) : ℚ :=
  (((ocupadosGrupo df aglo ano).filter fun r =>
      clasificar_rama r.pp04bCod = some rm).map fun r => r.pondera.getD 0).sum

/-- Weight of the group's unclassified employed rows (`RAMA_TUR` is NaN). -/
def ocupadosSinRama (df : List Registro) (aglo ano : Int) : ℚ :=
  (((ocupadosGrupo df aglo ano).filter fun r =>
      clasificar_rama r.pp04bCod = none).map fun r => r.pondera.getD 0).sum

/-- `PART_RAMA = OCUPADOS_RAMA / OCUPADOS_TOTALES`. -/
def partRama (df : List Registro) (aglo ano : Int) (rm : Rama) : ℚ :=
  ocupadosRama df aglo ano rm / ocupadosTotales df aglo ano

/-- A concrete table for the boxplot-cleanup order: a 17-year-old with a huge
income (1000) and two adults with incomes 10 and 20, all with weight 1. -/
def tablaBoxplot : List Registro :=
  [⟨2024, 1, 31, some 1, some 17, some 1, none, some 1000, none⟩,
   ⟨2024, 1, 31, some 1, some 20, some 1, none, some 10, none⟩,
   ⟨2024, 1, 31, some 1, some 20, some 1, none, some 20, none⟩]

/-- A concrete employment table for branch participation: three employed
adults of region 31, year 2024, with branch codes 2000 (Industry), 5500
(Tourism) and 9999 (unclassified), weight 1 each. -/
def tablaRamas : List Registro :=
  [⟨2024, 1, 31, some 1, some 20, some 1, none, none, some 2000⟩,
   ⟨2024, 1, 31, some 1, some 20, some 1, none, none, some 5500⟩,
   ⟨2024, 1, 31, some 1, some 20, some 1, none, none, some 9999⟩]

/-! ## Theorems -/

/-- C7: Branch classification uses half-open code ranges: a code is Industry
iff `1500 ≤ c < 4000`, Tourism iff `5000 ≤ c < 6000` or `9100 ≤ c < 9500`;
in particular 4000 is not Industry, 5999 is Tourism, 6000 is not Tourism;
any other or missing code is unclassified. -/
theorem C7_rangos_semiabiertos :
    (∀ c : Int,
      (clasificar_rama (some c) = some Rama.industria ↔ 1500 ≤ c ∧ c < 4000) ∧
      (clasificar_rama (some c) = some Rama.turismo ↔
        (5000 ≤ c ∧ c < 6000) ∨ (9100 ≤ c ∧ c < 9500)) ∧
      (clasificar_rama (some c) = none ↔
        ¬(1500 ≤ c ∧ c < 4000) ∧ ¬((5000 ≤ c ∧ c < 6000) ∨ (9100 ≤ c ∧ c < 9500)))) ∧
    clasificar_rama (some 4000) ≠ some Rama.industria ∧
    clasificar_rama (some 5999) = some Rama.turismo ∧
    clasificar_rama (some 6000) ≠ some Rama.turismo ∧
    clasificar_rama none = none := by
  refine ⟨fun c => ?_, by decide, by decide, by decide, rfl⟩
  simp only [clasificar_rama]
  split_ifs with h1 h2 h3
  all_goals refine ⟨?_, ?_, ?_⟩
  all_goals simp_all
  all_goals omega

/-- C10: the sentinel-to-missing substitution is also applied to the
nominal-income column `P47T` (it is listed in `COLS_CON_NA`), so a raw income
of exactly 9, 99 or -1 is missing after cleaning. -/
theorem C10_sentinelas_p47t (v : ℚ) (h : v = 9 ∨ v = 99 ∨ v = -1) :
    Columna.P47T ∈ COLS_CON_NA ∧ limpiarP47T (some v) = none := by
  refine ⟨by decide, ?_⟩
  have hv : v ∈ NO_RESPUESTA := by
    rcases h with h | h | h <;> simp [NO_RESPUESTA, h]
  simp [limpiarP47T, replaceNoRespuesta, hv, corregirNegativos,
    show Columna.P47T ∈ COLS_CON_NA by decide]

/-- Witness for C10 at the three sentinel values. -/
theorem C10_sentinelas_p47t_witness :
    limpiarP47T (some 9) = none ∧ limpiarP47T (some 99) = none ∧
      limpiarP47T (some (-1)) = none :=
  ⟨(C10_sentinelas_p47t 9 (Or.inl rfl)).2,
   (C10_sentinelas_p47t 99 (Or.inr (Or.inl rfl))).2,
   (C10_sentinelas_p47t (-1) (Or.inr (Or.inr rfl))).2⟩

/-- C3: for every (region, year, quarter) group of the 18+ cohort, each rate
is the number 0 — not missing, not an exception — when its denominator is 0:
TA and TE when the group population is 0, TD when employed + unemployed is 0. -/
theorem C3_tasas_cero_en_denominador_cero (rows : List Registro)
    (aglo ano trim : Int) :
    (poblacion (grupoTrimestral rows aglo ano trim) = 0 →
      (tasasTrimestralesEn rows aglo ano trim).1 = 0 ∧
      (tasasTrimestralesEn rows aglo ano trim).2.1 = 0) ∧
    (ocupados (grupoTrimestral rows aglo ano trim) +
        desocupados (grupoTrimestral rows aglo ano trim) = 0 →
      (tasasTrimestralesEn rows aglo ano trim).2.2 = 0) := by
  constructor
  · intro h
    simp only [tasasTrimestralesEn, calcular_tasas, h]
    norm_num
  · intro h
    simp only [tasasTrimestralesEn, calcular_tasas]
    rw [h]
    norm_num

/-- Witness for C3: the empty table has empty groups, population 0 and
PEA 0, and all three rates are 0. -/
theorem C3_tasas_cero_witness :
    (tasasTrimestralesEn [] 31 2024 1).1 = 0 ∧
      (tasasTrimestralesEn [] 31 2024 1).2.1 = 0 ∧
      (tasasTrimestralesEn [] 31 2024 1).2.2 = 0 :=
  ⟨((C3_tasas_cero_en_denominador_cero [] 31 2024 1).1 (by decide)).1,
   ((C3_tasas_cero_en_denominador_cero [] 31 2024 1).1 (by decide)).2,
   (C3_tasas_cero_en_denominador_cero [] 31 2024 1).2
     (by norm_num [ocupados, desocupados, grupoTrimestral])⟩

/-- C5: if the IPC series has no row for the base period, deflation fails
(the modelled `IndexError` of `.iloc[0]`, `none`) instead of returning a
deflated table. -/
theorem C5_base_ausente_falla (df : List Registro) (ipc : List FilaIPC)
    (a t : Int) (h : ∀ fila ∈ ipc, ¬(fila.ano4 = a ∧ fila.trimestre = t)) :
    deflactar_ingreso df ipc a t = none := by
  have hb : buscarIPC ipc a t = none := by
    unfold buscarIPC
    rw [List.head?_eq_none_iff, List.filter_eq_nil_iff]
    intro fila hf
    simpa using h fila hf
  unfold deflactar_ingreso
  rw [hb]

/-- Witness for C5: an IPC table without the 2025-T2 base row. -/
theorem C5_base_ausente_witness :
    deflactar_ingreso [] [⟨2024, 1, some 100⟩] 2025 2 = none :=
  C5_base_ausente_falla [] [⟨2024, 1, some 100⟩] 2025 2 (by decide)

/-- The masked numerator of `wmean` is the spec's eligible-row sum. -/
theorem sumaNumerador_eq_filter (rows : List (Option ℚ × Option ℚ)) :
    ((rows.filter elegible).map fun p => p.1.getD 0 * p.2.getD 0).sum =
      sumaNumerador rows := by
  unfold sumaNumerador
  induction rows with
  | nil => rfl
  | cons q l ih =>
    obtain ⟨x, w⟩ := q
    rcases x with _ | x <;> rcases w with _ | w
    · simpa [List.filter_cons, List.filterMap_cons, elegible] using ih
    · simpa [List.filter_cons, List.filterMap_cons, elegible] using ih
    · simpa [List.filter_cons, List.filterMap_cons, elegible] using ih
    · by_cases h0 : 0 < w
      · simpa [List.filter_cons, List.filterMap_cons, elegible, h0] using ih
      · simpa [List.filter_cons, List.filterMap_cons, elegible, h0] using ih

/-- The masked denominator of `wmean` is the spec's eligible-weight sum. -/
theorem sumaDenominador_eq_filter (rows : List (Option ℚ × Option ℚ)) :
    ((rows.filter elegible).map fun p => p.2.getD 0).sum = sumaDenominador rows := by
  unfold sumaDenominador
  induction rows with
  | nil => rfl
  | cons q l ih =>
    obtain ⟨x, w⟩ := q
    rcases x with _ | x <;> rcases w with _ | w
    · simpa [List.filter_cons, List.filterMap_cons, elegible] using ih
    · simpa [List.filter_cons, List.filterMap_cons, elegible] using ih
    · simpa [List.filter_cons, List.filterMap_cons, elegible] using ih
    · by_cases h0 : 0 < w
      · simpa [List.filter_cons, List.filterMap_cons, elegible, h0] using ih
      · simpa [List.filter_cons, List.filterMap_cons, elegible, h0] using ih

/-- C1: the weighted mean is `Σ x_i·w_i / Σ w_i` over the rows with income
present and weight strictly positive, and it is missing — not zero, not an
error — when no row is eligible. -/
theorem C1_media_ponderada (rows : List (Option ℚ × Option ℚ)) :
    ((∃ p ∈ rows, elegible p) →
      wmean rows = some (sumaNumerador rows / sumaDenominador rows)) ∧
    ((∀ p ∈ rows, ¬ elegible p) → wmean rows = none) := by
  constructor
  · intro hex
    have hne : rows.filter elegible ≠ [] := by
      rw [ne_eq, List.filter_eq_nil_iff]
      push_neg
      obtain ⟨p, hp, he⟩ := hex
      exact ⟨p, hp, by simpa using he⟩
    simp only [wmean, if_neg hne]
    rw [sumaNumerador_eq_filter, sumaDenominador_eq_filter]
  · intro hall
    have hnil : rows.filter elegible = [] :=
      List.filter_eq_nil_iff.mpr fun a ha => by simpa using hall a ha
    simp only [wmean, hnil, if_pos]

/-- Witness for C1: the spec's concrete scenario, incomes 1000 and 3000 with
weight 2 each, has weighted mean 2000. -/
theorem C1_media_ponderada_witness :
    wmean [(some 1000, some 2), (some 3000, some 2)] = some 2000 := by
  have h := (C1_media_ponderada [(some 1000, some 2), (some 3000, some 2)]).1
    ⟨(some 1000, some 2), by simp, by norm_num [elegible]⟩
  rw [h]
  norm_num [sumaNumerador, sumaDenominador, List.filterMap_cons]

/-- C4 counterexample: a record at the base period 2025-T2 whose matching
price-index entry has value 0.  Deflation runs, but the rebasing ratio is the
float `0/0` (NaN, modelled `none`), so the real income is missing while the
nominal income is 100 — the claim's `real_income == nominal_income` fails. -/
theorem C4_contraejemplo :
    buscarIPC [⟨2025, 2, some 0⟩] 2025 2 = some ⟨2025, 2, some 0⟩ ∧
    (deflactar_ingreso [⟨2025, 2, 31, some 1, some 20, some 1, some 100, none, none⟩]
        [⟨2025, 2, some 0⟩] 2025 2).map (List.map Registro.ingresoReal) = some [none] ∧
    (deflactar_ingreso [⟨2025, 2, 31, some 1, some 20, some 1, some 100, none, none⟩]
        [⟨2025, 2, some 0⟩] 2025 2).map (List.map Registro.p47t) = some [some 100] ∧
    (none : Option ℚ) ≠ some 100 := by
  refine ⟨rfl, rfl, rfl, by simp⟩

/-- C4 (amended): for every record whose (year, quarter) is the base period,
when the base period has a matching index entry whose value is present and
nonzero, deflation succeeds and yields `real_income = nominal_income`
(including missing = missing). -/
theorem C4_identidad_rebase (df : List Registro) (ipc : List FilaIPC)
    (anoB trimB : Int) (base : FilaIPC) (v : ℚ)
    (hbase : buscarIPC ipc anoB trimB = some base)
    (hv : base.ipc = some v) (hv0 : v ≠ 0)
    (r : Registro) (ha : r.ano4 = anoB) (ht : r.trimestre = trimB) :
    deflactar_ingreso df ipc anoB trimB = some (df.map (deflactarRegistro ipc base)) ∧
    (deflactarRegistro ipc base r).ingresoReal = r.p47t := by
  constructor
  · rw [deflactar_ingreso, hbase]
  · have hfila : buscarIPC ipc r.ano4 r.trimestre = some base := by rw [ha, ht, hbase]
    have hrazon : razonIPC base.ipc ((buscarIPC ipc r.ano4 r.trimestre).bind FilaIPC.ipc) =
        some 1 := by
      rw [hfila, Option.some_bind, hv, razonIPC, if_neg hv0, div_self hv0]
    simp only [deflactarRegistro, hrazon]
    rcases r.p47t with _ | ing
    · rfl
    · simp

/-- Witness for C4: base 2025-T2 with index value 100; a record of that
period with nominal income 1000 keeps real income 1000. -/
theorem C4_identidad_rebase_witness :
    (deflactarRegistro [⟨2025, 2, some 100⟩] ⟨2025, 2, some 100⟩
        ⟨2025, 2, 31, some 1, some 20, some 1, some 1000, none, none⟩).ingresoReal =
      some 1000 :=
  (C4_identidad_rebase [] [⟨2025, 2, some 100⟩] 2025 2 ⟨2025, 2, some 100⟩ 100
    rfl rfl (by norm_num)
    ⟨2025, 2, 31, some 1, some 20, some 1, some 1000, none, none⟩ rfl rfl).2

/-- The truncated expansion list carries exactly the multiset
`multisetTrunc`. -/
theorem coe_expandir (rows : List (Option ℚ × Option ℚ)) :
    ((expandir rows : List ℚ) : Multiset ℚ) = multisetTrunc rows := by
  unfold expandir multisetTrunc
  generalize filasValidas rows = l
  induction l with
  | nil => rfl
  | cons p l ih =>
    rw [List.flatMap_cons, List.map_cons, List.sum_cons, ← ih,
      ← Multiset.coe_replicate, Multiset.coe_add]

/-- `cuantil` of a list is the order-statistic quantile of its multiset. -/
theorem cuantil_coe (l : List ℚ) (p : ℚ) :
    cuantil l p = cuantilMultiset (↑l) p := by
  unfold cuantil cuantilMultiset
  by_cases h : l = []
  · subst h; rfl
  · rw [if_neg h, if_neg (by simpa [Multiset.coe_eq_zero] using h)]
    have hsort : List.insertionSort (· ≤ ·) l = Multiset.sort (· ≤ ·) (↑l) := by
      refine List.eq_of_perm_of_sorted ?_ (List.sorted_insertionSort _ l)
        (Multiset.sort_sorted _ _)
      exact (List.perm_insertionSort _ l).trans
        ((Multiset.coe_eq_coe.mp (Multiset.sort_eq (· ≤ ·) (↑l : Multiset ℚ))).symm)
    rw [hsort, Multiset.coe_card]

/-- C2 counterexample: the group with rows `(x=1, w=1)` and `(x=2, w=1.9)`.
The code truncates `1.9` to one repetition and its median is `3/2`; the
claim's `round(w)` expansion `[1, 2, 2]` has median `2`. -/
theorem C2_contraejemplo :
    medianaGrupo [(some 1, some 1), (some 2, some (19 / 10))] = some (3 / 2) ∧
    cuantil (expandirRound [(some 1, some 1), (some 2, some (19 / 10))]) (1 / 2) =
      some 2 ∧
    (3 / 2 : ℚ) ≠ 2 := by
  have h : filasValidas [(some 1, some 1), (some 2, some (19 / 10))] =
      [(1, 1), (2, 19 / 10)] := by
    simp [filasValidas, List.filterMap_cons]
  have hf : (⌊(19 / 10 : ℚ)⌋ : Int) = 1 := by norm_num
  have hrnd : round (19 / 10 : ℚ) = 2 := by norm_num [round_eq]
  have he : expandir [(some 1, some 1), (some 2, some (19 / 10))] = [1, 2] := by
    rw [expandir, h]
    norm_num [List.flatMap_cons, hf]
  have hr : expandirRound [(some 1, some 1), (some 2, some (19 / 10))] =
      [1, 2, 2] := by
    rw [expandirRound, h]
    norm_num [List.flatMap_cons, hrnd, List.replicate_succ]
    rfl
  refine ⟨?_, ?_, by norm_num⟩
  · rw [medianaGrupo, he, cuantil, if_neg (by simp)]
    norm_num [interpola, List.insertionSort, List.orderedInsert,
      List.getD_cons_zero, List.getD_cons_succ]
  · rw [hr, cuantil, if_neg (by simp)]
    norm_num [interpola, List.insertionSort, List.orderedInsert,
      List.getD_cons_zero, List.getD_cons_succ]

/-- C2 (amended): for every group, the median, Q25 and Q75 are the exact
order-statistic quantiles of the multiset in which each eligible record
(income present, weight > 0) appears `int(w_i)` times — numpy's truncation
toward zero, not `round(w_i)` — and are missing when that multiset is empty. -/
theorem C2_expansion_truncada (rows : List (Option ℚ × Option ℚ)) :
    medianaGrupo rows = cuantilMultiset (multisetTrunc rows) (1 / 2) ∧
    q25Grupo rows = cuantilMultiset (multisetTrunc rows) (1 / 4) ∧
    q75Grupo rows = cuantilMultiset (multisetTrunc rows) (3 / 4) := by
  refine ⟨?_, ?_, ?_⟩
  · rw [medianaGrupo, cuantil_coe, coe_expandir]
  · rw [q25Grupo, cuantil_coe, coe_expandir]
  · rw [q75Grupo, cuantil_coe, coe_expandir]

/-- C6 counterexample: in `limpiar_boxplot` the age filter comes **after**
the outlier trim, so the 99.5th-percentile threshold (990.2, computed over
incomes 1000, 10, 20 including the minor's) keeps the adult with income 20,
while the claimed order (validity filters including age first, threshold
19.95 over incomes 10, 20) drops it: the outputs differ. -/
theorem C6_contraejemplo :
    limpiar_boxplot tablaBoxplot =
      [⟨2024, 1, 31, some 1, some 20, some 1, none, some 10, none⟩,
       ⟨2024, 1, 31, some 1, some 20, some 1, none, some 20, none⟩] ∧
    limpiarOrdenSpec tablaBoxplot =
      [⟨2024, 1, 31, some 1, some 20, some 1, none, some 10, none⟩] ∧
    limpiar_boxplot tablaBoxplot ≠ limpiarOrdenSpec tablaBoxplot := by
  have h1 : (tablaBoxplot.filter ingresoPositivo).filter ponderaPositiva =
      tablaBoxplot := by
    norm_num [tablaBoxplot, List.filter_cons, ingresoPositivo, ponderaPositiva]
  have hq : cuantil (tablaBoxplot.map fun r => r.ingresoReal.getD 0) (995 / 1000) =
      some (4951 / 5) := by
    have hm : tablaBoxplot.map (fun r => r.ingresoReal.getD 0) = [1000, 10, 20] := by
      norm_num [tablaBoxplot]
    rw [hm, cuantil, if_neg (by simp)]
    norm_num [interpola, List.insertionSort, List.orderedInsert,
      List.getD_cons_zero, List.getD_cons_succ]
  have hA : limpiar_boxplot tablaBoxplot =
      [⟨2024, 1, 31, some 1, some 20, some 1, none, some 10, none⟩,
       ⟨2024, 1, 31, some 1, some 20, some 1, none, some 20, none⟩] := by
    simp only [limpiar_boxplot, h1, hq]
    norm_num [tablaBoxplot, List.filter_cons, bajoUmbral, esAdulto]
  have hB : limpiarOrdenSpec tablaBoxplot =
      [⟨2024, 1, 31, some 1, some 20, some 1, none, some 10, none⟩] := by
    have h2 : ((tablaBoxplot.filter ingresoPositivo).filter ponderaPositiva).filter
        esAdulto =
        [⟨2024, 1, 31, some 1, some 20, some 1, none, some 10, none⟩,
         ⟨2024, 1, 31, some 1, some 20, some 1, none, some 20, none⟩] := by
      rw [h1]
      norm_num [tablaBoxplot, List.filter_cons, esAdulto]
    have hq2 : cuantil
        ([(⟨2024, 1, 31, some 1, some 20, some 1, none, some 10, none⟩ : Registro),
          ⟨2024, 1, 31, some 1, some 20, some 1, none, some 20, none⟩].map
            fun r => r.ingresoReal.getD 0) (995 / 1000) = some (399 / 20) := by
      rw [show ([(⟨2024, 1, 31, some 1, some 20, some 1, none, some 10, none⟩ : Registro),
          ⟨2024, 1, 31, some 1, some 20, some 1, none, some 20, none⟩].map
            fun r => r.ingresoReal.getD 0) = [10, 20] by norm_num]
      rw [cuantil, if_neg (by simp)]
      norm_num [interpola, List.insertionSort, List.orderedInsert,
        List.getD_cons_zero, List.getD_cons_succ]
    simp only [limpiarOrdenSpec, h2, hq2]
    norm_num [List.filter_cons, bajoUmbral]
  exact ⟨hA, hB, by rw [hA, hB]; simp⟩

/-- C6 (amended): `limpiar_boxplot` keeps exactly the rows with positive
income, positive weight, income at most the 99.5th percentile, and age at
least 18 — but the percentile threshold is computed over the
positive-income positive-weight population of **all ages**: the income and
weight filters precede the trim, while the age filter is applied after it. -/
theorem C6_orden_de_filtros (df : List Registro) :
    limpiar_boxplot df = limpiarDescripcion df := by
  unfold limpiar_boxplot limpiarDescripcion
  have hbase : (df.filter ingresoPositivo).filter ponderaPositiva =
      df.filter fun r => ingresoPositivo r && ponderaPositiva r := by
    rw [List.filter_filter]
    exact List.filter_congr fun r _ => Bool.and_comm _ _
  rw [hbase, List.filter_filter, List.filter_filter]
  refine List.filter_congr fun r _ => ?_
  cases ingresoPositivo r <;> cases ponderaPositiva r <;>
    cases esAdulto r <;> simp

/-- The employed weight of a group splits into Industry, Tourism and
unclassified weight. -/
theorem particion_pondera (l : List Registro) :
    ((l.filter fun r => clasificar_rama r.pp04bCod = some Rama.industria).map
        fun r => r.pondera.getD 0).sum +
      ((l.filter fun r => clasificar_rama r.pp04bCod = some Rama.turismo).map
        fun r => r.pondera.getD 0).sum +
      ((l.filter fun r => clasificar_rama r.pp04bCod = none).map
        fun r => r.pondera.getD 0).sum =
      (l.map fun r => r.pondera.getD 0).sum := by
  induction l with
  | nil => simp
  | cons r l ih =>
    rcases h : clasificar_rama r.pp04bCod with _ | rm
    · simp [List.filter_cons, h]
      linarith [ih]
    · cases rm
      · simp [List.filter_cons, h]
        linarith [ih]
      · simp [List.filter_cons, h]
        linarith [ih]

/-- C8: for every (region, year) whose employed weights are non-negative
(the survey invariant) and whose total employed weight is non-zero, the
Industry and Tourism shares sum to at most 1, strictly below 1 whenever the
group has an unclassified employed record with positive weight — the
denominator counts all employed weight, each numerator only its branch. -/
theorem C8_clausura_participacion (df : List Registro) (aglo ano : Int)
    (hw : ∀ r ∈ ocupadosGrupo df aglo ano, 0 ≤ r.pondera.getD 0)
    (hden : ocupadosTotales df aglo ano ≠ 0) :
    partRama df aglo ano Rama.industria + partRama df aglo ano Rama.turismo ≤ 1 ∧
    ((∃ r ∈ ocupadosGrupo df aglo ano,
        clasificar_rama r.pp04bCod = none ∧ 0 < r.pondera.getD 0) →
      partRama df aglo ano Rama.industria + partRama df aglo ano Rama.turismo < 1) := by
  have hnn : ∀ x ∈ ((ocupadosGrupo df aglo ano).filter fun r =>
      clasificar_rama r.pp04bCod = none).map (fun r => r.pondera.getD 0), 0 ≤ x := by
    intro x hx
    obtain ⟨r, hr, rfl⟩ := List.mem_map.mp hx
    exact hw r (List.mem_of_mem_filter hr)
  have hU0 : 0 ≤ ocupadosSinRama df aglo ano := List.sum_nonneg hnn
  have hD0 : 0 ≤ ocupadosTotales df aglo ano := by
    apply List.sum_nonneg
    intro x hx
    obtain ⟨r, hr, rfl⟩ := List.mem_map.mp hx
    exact hw r hr
  have hDpos : 0 < ocupadosTotales df aglo ano := lt_of_le_of_ne hD0 (Ne.symm hden)
  have hsum : ocupadosRama df aglo ano Rama.industria +
      ocupadosRama df aglo ano Rama.turismo + ocupadosSinRama df aglo ano =
      ocupadosTotales df aglo ano := particion_pondera (ocupadosGrupo df aglo ano)
  constructor
  · rw [partRama, partRama, div_add_div_same, div_le_one hDpos]
    linarith
  · rintro ⟨r, hr, hnone, hwpos⟩
    have hmem : r.pondera.getD 0 ∈ ((ocupadosGrupo df aglo ano).filter fun r =>
        clasificar_rama r.pp04bCod = none).map (fun r => r.pondera.getD 0) :=
      List.mem_map_of_mem _ (List.mem_filter.mpr ⟨hr, by simp [hnone]⟩)
    have hUpos : 0 < ocupadosSinRama df aglo ano :=
      lt_of_lt_of_le hwpos (List.single_le_sum hnn _ hmem)
    rw [partRama, partRama, div_add_div_same, div_lt_one hDpos]
    linarith

/-- Witness for C8: the spec's scenario (codes 2000, 5500, 9999, weight 1
each) has shares 1/3 + 1/3, strictly below 1. -/
theorem C8_clausura_participacion_witness :
    partRama tablaRamas 31 2024 Rama.industria +
      partRama tablaRamas 31 2024 Rama.turismo < 1 := by
  have hg : ocupadosGrupo tablaRamas 31 2024 = tablaRamas := by
    norm_num [ocupadosGrupo, esAdulto, esOcupado, List.filter_cons, tablaRamas]
  refine (C8_clausura_participacion tablaRamas 31 2024 ?_ ?_).2 ?_
  · rw [hg]
    intro r hr
    simp only [tablaRamas, List.mem_cons, List.not_mem_nil, or_false] at hr
    rcases hr with rfl | rfl | rfl <;> norm_num
  · rw [ocupadosTotales, hg]
    norm_num [tablaRamas]
  · rw [hg]
    refine ⟨⟨2024, 1, 31, some 1, some 20, some 1, none, none, some 9999⟩, ?_, ?_, ?_⟩
    · simp [tablaRamas]
    · decide
    · norm_num

/-- In a sorted list, the default-0 access is monotone on in-range indices. -/
theorem getD_le_getD_sorted {v : List ℚ} (hs : List.Sorted (· ≤ ·) v) {i j : ℕ}
    (hij : i ≤ j) (hj : j < v.length) : v.getD i 0 ≤ v.getD j 0 := by
  have hi : i < v.length := lt_of_le_of_lt hij hj
  rw [List.getD_eq_get _ _ hi, List.getD_eq_get _ _ hj]
  exact hs.rel_get_of_le (Fin.mk_le_mk.mpr hij)

/-- In a sorted list, the upper interpolation neighbour (which defaults to
the lower one past the end) is at least the lower one. -/
theorem getD_le_getD_succ {v : List ℚ} (hs : List.Sorted (· ≤ ·) v) {k : ℕ}
    (hk : k < v.length) : v.getD k 0 ≤ v.getD (k + 1) (v.getD k 0) := by
  by_cases hk1 : k + 1 < v.length
  · rw [List.getD_eq_get _ _ hk1]
    rw [List.getD_eq_get _ _ hk]
    exact hs.rel_get_of_le (Fin.mk_le_mk.mpr (Nat.le_succ k))
  · have hd : v.getD (k + 1) (v.getD k 0) = v.getD k 0 :=
      List.getD_eq_default _ _ (by omega)
    rw [hd]

/-- Linear interpolation along a sorted list is monotone in the position. -/
theorem interpola_mono {v : List ℚ} (hs : List.Sorted (· ≤ ·) v) (hv : v ≠ [])
    {g h : ℚ} (hg0 : 0 ≤ g) (hgh : g ≤ h) (htop : h ≤ (v.length : ℚ) - 1) :
    interpola v g ≤ interpola v h := by
  have hn : 0 < v.length := List.length_pos.mpr hv
  have hfg0 : (0 : ℤ) ≤ ⌊g⌋ := Int.floor_nonneg.mpr hg0
  have hfh0 : (0 : ℤ) ≤ ⌊h⌋ := Int.floor_nonneg.mpr (hg0.trans hgh)
  have hff : ⌊g⌋ ≤ ⌊h⌋ := Int.floor_le_floor hgh
  have hhtop : ⌊h⌋ ≤ (v.length : ℤ) - 1 := by
    have h2 : (⌊h⌋ : ℚ) ≤ (((v.length : ℤ) - 1 : ℤ) : ℚ) := by
      push_cast
      linarith [Int.floor_le h]
    exact_mod_cast h2
  have hjlt : ⌊h⌋.toNat < v.length := by omega
  have hilt : ⌊g⌋.toNat < v.length := by omega
  have hfracg0 : 0 ≤ g - (⌊g⌋ : ℚ) := sub_nonneg.mpr (Int.floor_le g)
  have hfracg1 : g - (⌊g⌋ : ℚ) < 1 := by
    have := Int.lt_floor_add_one g
    linarith
  have hfrach0 : 0 ≤ h - (⌊h⌋ : ℚ) := sub_nonneg.mpr (Int.floor_le h)
  simp only [interpola]
  have hab1 := getD_le_getD_succ hs hilt
  have hab2 := getD_le_getD_succ hs hjlt
  rcases eq_or_lt_of_le (Int.toNat_le_toNat hff) with heq | hlt
  · have hfleq : ⌊g⌋ = ⌊h⌋ := by omega
    rw [← heq, ← hfleq]
    have hmul := mul_le_mul_of_nonneg_right (by linarith : g - (⌊g⌋ : ℚ) ≤ h - (⌊g⌋ : ℚ))
      (by linarith : (0 : ℚ) ≤ v.getD (⌊g⌋.toNat + 1) (v.getD ⌊g⌋.toNat 0) - v.getD ⌊g⌋.toNat 0)
    linarith
  · have hi1 : ⌊g⌋.toNat + 1 < v.length := by omega
    have hb1get : v.getD (⌊g⌋.toNat + 1) (v.getD ⌊g⌋.toNat 0) = v.getD (⌊g⌋.toNat + 1) 0 := by
      rw [List.getD_eq_get _ _ hi1, List.getD_eq_get _ _ hi1]
    have step1 : v.getD ⌊g⌋.toNat 0 + (g - (⌊g⌋ : ℚ)) *
        (v.getD (⌊g⌋.toNat + 1) (v.getD ⌊g⌋.toNat 0) - v.getD ⌊g⌋.toNat 0) ≤
        v.getD (⌊g⌋.toNat + 1) (v.getD ⌊g⌋.toNat 0) := by
      nlinarith [mul_nonneg (by linarith : (0 : ℚ) ≤ 1 - (g - (⌊g⌋ : ℚ)))
        (by linarith : (0 : ℚ) ≤ v.getD (⌊g⌋.toNat + 1) (v.getD ⌊g⌋.toNat 0) -
          v.getD ⌊g⌋.toNat 0)]
    have step2 : v.getD (⌊g⌋.toNat + 1) 0 ≤ v.getD ⌊h⌋.toNat 0 :=
      getD_le_getD_sorted hs (by omega) hjlt
    have step3 : v.getD ⌊h⌋.toNat 0 ≤ v.getD ⌊h⌋.toNat 0 + (h - (⌊h⌋ : ℚ)) *
        (v.getD (⌊h⌋.toNat + 1) (v.getD ⌊h⌋.toNat 0) - v.getD ⌊h⌋.toNat 0) := by
      nlinarith [mul_nonneg hfrach0
        (by linarith : (0 : ℚ) ≤ v.getD (⌊h⌋.toNat + 1) (v.getD ⌊h⌋.toNat 0) -
          v.getD ⌊h⌋.toNat 0)]
    calc v.getD ⌊g⌋.toNat 0 + (g - (⌊g⌋ : ℚ)) *
        (v.getD (⌊g⌋.toNat + 1) (v.getD ⌊g⌋.toNat 0) - v.getD ⌊g⌋.toNat 0)
        ≤ v.getD (⌊g⌋.toNat + 1) (v.getD ⌊g⌋.toNat 0) := step1
      _ = v.getD (⌊g⌋.toNat + 1) 0 := hb1get
      _ ≤ v.getD ⌊h⌋.toNat 0 := step2
      _ ≤ _ := step3

/-- C9: for every (region, period) group of the univariate income summary
whose quantiles are defined, `Q25 ≤ median ≤ Q75`. -/
theorem C9_cuartiles_monotonos (rows : List (Option ℚ × Option ℚ)) (a m b : ℚ)
    (h25 : q25Grupo rows = some a) (h50 : medianaGrupo rows = some m)
    (h75 : q75Grupo rows = some b) : a ≤ m ∧ m ≤ b := by
  have hne : expandir rows ≠ [] := by
    intro hnil
    rw [medianaGrupo, cuantil, if_pos hnil] at h50
    exact Option.noConfusion h50
  have hQ : ∀ p : ℚ, cuantil (expandir rows) p =
      some (interpola (List.insertionSort (· ≤ ·) (expandir rows))
        (p * (((expandir rows).length : ℚ) - 1))) := by
    intro p
    rw [cuantil, if_neg hne]
  rw [q25Grupo, hQ] at h25
  rw [medianaGrupo, hQ] at h50
  rw [q75Grupo, hQ] at h75
  have ha := Option.some.inj h25
  have hm := Option.some.inj h50
  have hb := Option.some.inj h75
  subst ha hm hb
  have hsorted : List.Sorted (· ≤ ·) (List.insertionSort (· ≤ ·) (expandir rows)) :=
    List.sorted_insertionSort _ _
  have hslen : (List.insertionSort (· ≤ ·) (expandir rows)).length =
      (expandir rows).length := (List.perm_insertionSort _ _).length_eq
  have hsne : List.insertionSort (· ≤ ·) (expandir rows) ≠ [] := by
    intro h0
    apply hne
    have hlen0 : (expandir rows).length = 0 := by rw [← hslen, h0, List.length_nil]
    exact List.length_eq_zero.mp hlen0
  have hn1 : 1 ≤ (expandir rows).length := List.length_pos.mpr hne
  have hn0 : (0 : ℚ) ≤ ((expandir rows).length : ℚ) - 1 := by
    have h1 : (1 : ℚ) ≤ ((expandir rows).length : ℚ) := by exact_mod_cast hn1
    linarith
  have hcast : ((List.insertionSort (· ≤ ·) (expandir rows)).length : ℚ) =
      ((expandir rows).length : ℚ) := by exact_mod_cast congrArg Nat.cast hslen
  constructor
  · apply interpola_mono hsorted hsne
    · exact mul_nonneg (by norm_num) hn0
    · exact mul_le_mul_of_nonneg_right (by norm_num) hn0
    · rw [hcast]
      nlinarith
  · apply interpola_mono hsorted hsne
    · exact mul_nonneg (by norm_num) hn0
    · exact mul_le_mul_of_nonneg_right (by norm_num) hn0
    · rw [hcast]
      nlinarith

/-- Witness for C9: the group with values 10 (weight 1), 30 (weight 2) and
20 (weight 1) expands to `[10, 30, 30, 20]` with Q25 = 17.5, median = 25,
Q75 = 30, and the two inequalities hold. -/
theorem C9_cuartiles_monotonos_witness :
    q25Grupo [(some 10, some 1), (some 30, some 2), (some 20, some 1)] = some (35 / 2) ∧
    medianaGrupo [(some 10, some 1), (some 30, some 2), (some 20, some 1)] = some 25 ∧
    q75Grupo [(some 10, some 1), (some 30, some 2), (some 20, some 1)] = some 30 ∧
    ((35 / 2 : ℚ) ≤ 25 ∧ (25 : ℚ) ≤ 30) := by
  have h : filasValidas [(some 10, some 1), (some 30, some 2), (some 20, some 1)] =
      [(10, 1), (30, 2), (20, 1)] := by
    simp [filasValidas, List.filterMap_cons]
  have he : expandir [(some 10, some 1), (some 30, some 2), (some 20, some 1)] =
      [10, 30, 30, 20] := by
    rw [expandir, h]
    norm_num [List.flatMap_cons, List.replicate_succ]
    rfl
  have h25 : q25Grupo [(some 10, some 1), (some 30, some 2), (some 20, some 1)] =
      some (35 / 2) := by
    rw [q25Grupo, he, cuantil, if_neg (by simp)]
    norm_num [interpola, List.insertionSort, List.orderedInsert,
      List.getD_cons_zero, List.getD_cons_succ]
  have h50 : medianaGrupo [(some 10, some 1), (some 30, some 2), (some 20, some 1)] =
      some 25 := by
    rw [medianaGrupo, he, cuantil, if_neg (by simp)]
    norm_num [interpola, List.insertionSort, List.orderedInsert,
      List.getD_cons_zero, List.getD_cons_succ]
  have h75 : q75Grupo [(some 10, some 1), (some 30, some 2), (some 20, some 1)] =
      some 30 := by
    rw [q75Grupo, he, cuantil, if_neg (by simp)]
    norm_num [interpola, List.insertionSort, List.orderedInsert,
      List.getD_cons_zero, List.getD_cons_succ]
    norm_num [show Int.toNat 2 = 2 from rfl]
  exact ⟨h25, h50, h75, C9_cuartiles_monotonos _ _ _ _ h25 h50 h75⟩

end EPH
